import Mathlib

/-!
Shallow embedding of the `gaming_database` provisioning and health-check
component (source files `init_db.py` and `health_server.py`).

Modelling conventions:
* SQLite tables are lists of row structures together with the table's
  AUTOINCREMENT sequence counter (`Table.seq`); an INSERT that omits the id
  assigns `seq + 1` and bumps the counter, mirroring `INTEGER PRIMARY KEY
  AUTOINCREMENT`.
* `CREATE TABLE IF NOT EXISTS` / `CREATE INDEX IF NOT EXISTS` are modelled
  on the schema catalogue as name-keyed insert-if-absent over (name, sql)
  pairs; the sql text is carried as an opaque string.
* `created_at TIMESTAMP DEFAULT CURRENT_TIMESTAMP` columns are not part of
  the row model: no statement in the script reads them and no verified
  property mentions them.
* Failures are injected through a `FailureProfile` (index 0 = the CREATE
  TABLE / CREATE INDEX statements, with `ddlDone` of them already executed
  when the failure hits; indices 1-5 = the seed DML stages: app_info upsert,
  user, game, score and analytics seeding). Durability follows Python
  sqlite3's default transaction control: DDL executed with no transaction
  open autocommits statement by statement, while the seed DML shares the
  single implicit transaction ended by `conn.commit()` — so a failing run
  keeps the schema changes it already made but none of its seed changes.
-/

namespace GamingDB

/-- Row of the `app_info` table (id, key UNIQUE, value). -/
structure AppInfoRow where
  id : Int
  key : String
  value : String
deriving Repr, DecidableEq

/-- Row of the `users` table. -/
structure UserRow where
  id : Int
  username : String
  email : String
  display_name : Option String
  avatar_url : Option String
  locale : String
deriving Repr, DecidableEq

/-- Row of the `games` table. -/
structure GameRow where
  id : Int
  code : String
  title : String
  description : String
  category : String
  is_active : Int
deriving Repr, DecidableEq

/-- Row of the `game_scores` table. -/
structure GameScoreRow where
  id : Int
  game_id : Int
  user_id : Int
  score : Int
  metadata : Option String
deriving Repr, DecidableEq

/-- Row of the `analytics_events` table (user_id / game_id nullable). -/
structure AnalyticsEventRow where
  id : Int
  user_id : Option Int
  game_id : Option Int
  event_type : String
  event_props : Option String
deriving Repr, DecidableEq

/-- A table: its rows in rowid order plus the AUTOINCREMENT sequence. -/
structure Table (ρ : Type) where
  rows : List ρ
  seq : Int
deriving Repr, DecidableEq

/-- State of the database file: schema catalogue (tables and indices as
(name, sql) pairs) and the five data tables. -/
structure DBState where
  tables : List (String × String)
  indices : List (String × String)
  app_info : Table AppInfoRow
  users : Table UserRow
  games : Table GameRow
  game_scores : Table GameScoreRow
  analytics_events : Table AnalyticsEventRow
deriving Repr, DecidableEq

/-- The empty table. -/
def emptyTable {ρ : Type} : Table ρ := ⟨[], 0⟩

/-- A fresh database file (what `sqlite3.connect` creates when absent). -/
def emptyDB : DBState := ⟨[], [], emptyTable, emptyTable, emptyTable, emptyTable, emptyTable⟩

/-- One `CREATE TABLE IF NOT EXISTS` or `CREATE INDEX IF NOT EXISTS`
statement of `init_db.py`. -/
structure SchemaItem where
  isIndex : Bool
  name : String
  sql : String
deriving Repr, DecidableEq

/-- The seventeen schema statements of `init_db.py`, in source order. -/
def schemaItems : List SchemaItem :=
  [⟨false, "app_info", "id PK AUTOINCREMENT, key TEXT UNIQUE NOT NULL, value TEXT, created_at"⟩,
   ⟨false, "users", "id PK AUTOINCREMENT, username TEXT UNIQUE NOT NULL, email TEXT UNIQUE NOT NULL, display_name, avatar_url, locale DEFAULT en, created_at"⟩,
   ⟨true, "idx_users_email", "users(email)"⟩,
   ⟨true, "idx_users_username", "users(username)"⟩,
   ⟨false, "games", "id PK AUTOINCREMENT, code TEXT UNIQUE NOT NULL, title TEXT NOT NULL, description, category, is_active DEFAULT 1, created_at"⟩,
   ⟨true, "idx_games_code", "games(code)"⟩,
   ⟨true, "idx_games_active", "games(is_active)"⟩,
   ⟨false, "game_scores", "id PK AUTOINCREMENT, game_id NOT NULL FK games(id) CASCADE, user_id NOT NULL FK users(id) CASCADE, score INTEGER NOT NULL, metadata, created_at"⟩,
   ⟨true, "idx_game_scores_game", "game_scores(game_id)"⟩,
   ⟨true, "idx_game_scores_user", "game_scores(user_id)"⟩,
   ⟨true, "idx_game_scores_created_at", "game_scores(created_at)"⟩,
   ⟨true, "idx_game_scores_game_user_score_desc", "game_scores(game_id, user_id, score DESC)"⟩,
   ⟨false, "analytics_events", "id PK AUTOINCREMENT, user_id FK users(id) SET NULL, game_id FK games(id) SET NULL, event_type NOT NULL, event_props, created_at"⟩,
   ⟨true, "idx_analytics_event_type", "analytics_events(event_type)"⟩,
   ⟨true, "idx_analytics_user", "analytics_events(user_id)"⟩,
   ⟨true, "idx_analytics_game", "analytics_events(game_id)"⟩,
   ⟨true, "idx_analytics_created_at", "analytics_events(created_at)"⟩]

/-- IF NOT EXISTS semantics on the schema catalogue: keyed by object name,
an existing object (whatever its sql) is left untouched. -/
def ensureNamed (objs : List (String × String)) (name sql : String) : List (String × String) :=
  if objs.any (fun o => o.1 == name) then objs else objs ++ [(name, sql)]

/-- Execute one schema statement. -/
def schemaStep (s : DBState) (it : SchemaItem) : DBState :=
  if it.isIndex then { s with indices := ensureNamed s.indices it.name it.sql }
  else { s with tables := ensureNamed s.tables it.name it.sql }

/-- Stage 1 of `init_db.py`: all CREATE TABLE / CREATE INDEX statements. -/
def createSchema (s : DBState) : DBState := schemaItems.foldl schemaStep s

/-- The four seeded `app_info` (key, value) pairs. -/
def seedAppInfoRows : List (String × String) :=
  [("project_name", "gaming_database"),
   ("version", "1.0.0"),
   ("author", "MyGov Games Platform"),
   ("description", "SQLite store for users, games, leaderboards, analytics.")]

/-- `INSERT OR REPLACE INTO app_info (key, value) VALUES (?, ?)`: every row
conflicting on the UNIQUE key is deleted and a fresh row (new rowid from the
sequence) is appended. -/
def insertOrReplaceAppInfo (s : DBState) (kv : String × String) : DBState :=
  { s with app_info :=
      ⟨s.app_info.rows.filter (fun r => r.key != kv.1) ++ [⟨s.app_info.seq + 1, kv.1, kv.2⟩],
       s.app_info.seq + 1⟩ }

/-- Stage 2 of `init_db.py`: upsert the four app_info rows. -/
def seedAppInfo (s : DBState) : DBState := seedAppInfoRows.foldl insertOrReplaceAppInfo s

/-- A seed user tuple of `init_db.py`. -/
structure UserSeed where
  username : String
  email : String
  display_name : Option String
  avatar_url : Option String
  locale : String
deriving Repr, DecidableEq

/-- The `seed_users` list of `init_db.py`. -/
def seed_users : List UserSeed :=
  [⟨"alice", "alice@example.com", some "Alice", none, "en"⟩,
   ⟨"bob", "bob@example.com", some "Bob", none, "en"⟩,
   ⟨"chitra", "chitra@example.in", some "Chitra", none, "hi"⟩]

/-- The guard `EXISTS (SELECT 1 FROM users WHERE username = ? OR email = ?)`. -/
def userMatches (c : UserSeed) (r : UserRow) : Bool :=
  r.username == c.username || r.email == c.email

/-- `INSERT INTO users ... SELECT ... WHERE NOT EXISTS (...)`. -/
def insertUserIfAbsent (s : DBState) (c : UserSeed) : DBState :=
  if s.users.rows.any (userMatches c) then s
  else { s with users :=
    ⟨s.users.rows ++ [⟨s.users.seq + 1, c.username, c.email, c.display_name, c.avatar_url, c.locale⟩],
     s.users.seq + 1⟩ }

/-- Stage 3 of `init_db.py`: seed the three users. -/
def seedUsers (s : DBState) : DBState := seed_users.foldl insertUserIfAbsent s

/-- A seed game tuple of `init_db.py`. -/
structure GameSeed where
  code : String
  title : String
  description : String
  category : String
  is_active : Int
deriving Repr, DecidableEq

/-- The `seed_games` list of `init_db.py`. -/
def seed_games : List GameSeed :=
  [⟨"quiz_master", "Quiz Master", "A general knowledge quiz game.", "quiz", 1⟩,
   ⟨"civic_challenge", "Civic Challenge", "Learn about governance through mini challenges.", "education", 1⟩,
   ⟨"swachh_run", "Swachh Run", "Endless runner promoting cleanliness awareness.", "arcade", 1⟩]

/-- `INSERT INTO games ... SELECT ... WHERE NOT EXISTS (SELECT 1 FROM games WHERE code = ?)`. -/
def insertGameIfAbsent (s : DBState) (c : GameSeed) : DBState :=
  if s.games.rows.any (fun r => r.code == c.code) then s
  else { s with games :=
    ⟨s.games.rows ++ [⟨s.games.seq + 1, c.code, c.title, c.description, c.category, c.is_active⟩],
     s.games.seq + 1⟩ }

/-- Stage 4 of `init_db.py`: seed the three games. -/
def seedGames (s : DBState) : DBState := seed_games.foldl insertGameIfAbsent s

/-- The `get_id("games", "code", val)` helper: first row matching, else None. -/
def get_id_games (s : DBState) (code : String) : Option Int :=
  (s.games.rows.find? (fun r => r.code == code)).map (fun r => r.id)

/-- The `get_id("users", "username", val)` helper: first row matching, else None. -/
def get_id_users (s : DBState) (username : String) : Option Int :=
  (s.users.rows.find? (fun r => r.username == username)).map (fun r => r.id)

/-- Python truthiness of an optional integer id, as used by `if gid and uid:`
in `init_db.py` (None and 0 are falsy). -/
def pyTruthy : Option Int → Bool
  | none => false
  | some v => v != 0

/-- A seed score tuple of `init_db.py` (`combos`). -/
structure ScoreSeed where
  game_code : String
  username : String
  score : Int
deriving Repr, DecidableEq

/-- The `combos` list of `init_db.py`. -/
def combos : List ScoreSeed :=
  [⟨"quiz_master", "alice", 850⟩,
   ⟨"quiz_master", "bob", 920⟩,
   ⟨"civic_challenge", "alice", 1200⟩,
   ⟨"civic_challenge", "chitra", 1100⟩,
   ⟨"swachh_run", "bob", 3000⟩]

/-- The guard `EXISTS (SELECT 1 FROM game_scores WHERE game_id = ? AND user_id = ? AND score = ?)`. -/
def tripleExists (s : DBState) (g u sc : Int) : Bool :=
  s.game_scores.rows.any (fun r => r.game_id == g && r.user_id == u && r.score == sc)

/-- One iteration of the `combos` loop: resolve `gid` and `uid`, proceed only
when `if gid and uid:` holds (Python truthiness), then guarded insert. -/
def insertScoreIfAbsent (s : DBState) (c : ScoreSeed) : DBState :=
  let gid := get_id_games s c.game_code
  let uid := get_id_users s c.username
  if pyTruthy gid && pyTruthy uid then
    let g := gid.getD 0
    let u := uid.getD 0
    if tripleExists s g u c.score then s
    else { s with game_scores :=
      ⟨s.game_scores.rows ++ [⟨s.game_scores.seq + 1, g, u, c.score, none⟩],
       s.game_scores.seq + 1⟩ }
  else s

/-- Stage 5 of `init_db.py`: seed the five score combos. -/
def seedGameScores (s : DBState) : DBState := combos.foldl insertScoreIfAbsent s

/-- A seed analytics tuple of `init_db.py` (`events`). -/
structure EventSeed where
  username : String
  game_code : String
  event_type : String
  event_props : String
deriving Repr, DecidableEq

/-- The `events` list of `init_db.py`. -/
def seedEventRows : List EventSeed :=
  [⟨"alice", "quiz_master", "game_start", "\x7b\"difficulty\":\"medium\"\x7d"⟩,
   ⟨"bob", "quiz_master", "game_end", "\x7b\"score\":920\x7d"⟩,
   ⟨"chitra", "civic_challenge", "level_complete", "\x7b\"level\":1\x7d"⟩]

/-- One iteration of the `events` loop: lookups may return None (inserted as
NULL); the insert is unconditional. -/
def insertAnalyticsEvent (s : DBState) (c : EventSeed) : DBState :=
  let uid := get_id_users s c.username
  let gid := get_id_games s c.game_code
  { s with analytics_events :=
      ⟨s.analytics_events.rows ++ [⟨s.analytics_events.seq + 1, uid, gid, c.event_type, some c.event_props⟩],
       s.analytics_events.seq + 1⟩ }

/-- Stage 6 of `init_db.py`: insert the three analytics events. -/
def seedAnalyticsEvents (s : DBState) : DBState := seedEventRows.foldl insertAnalyticsEvent s

/-- The six pipeline stages of `init_db.py`, in execution order. -/
def initSteps : List (DBState → DBState) :=
  [createSchema, seedAppInfo, seedUsers, seedGames, seedGameScores, seedAnalyticsEvents]

/-- One full run of `init_db.py` (its transactional part, steps 2-8 of the
spec), on the happy path. -/
def initDb (s : DBState) : DBState := initSteps.foldl (fun t f => f t) s

/-- The `app_info` content keyed by its natural key: the (key, value) list. -/
def appKV (s : DBState) : List (String × String) :=
  s.app_info.rows.map (fun r => (r.key, r.value))

/-- Abstract causes of a SQL statement failure. -/
inductive SqlError where
  | locked
  | diskError
  | corrupted
deriving Repr, DecidableEq

/-- Which part of the database work, if any, raises: index 0 is the schema
(CREATE TABLE / CREATE INDEX) phase, indices 1-5 are the seed DML stages in
`dmlSteps` order. -/
def FailureProfile := Nat → Option SqlError

/-- A stage under failure injection: either it raises or it performs its
state transformation. -/
def liftStep (f : DBState → DBState) (fail : Option SqlError) :
    DBState → Except SqlError DBState :=
  fun s => match fail with
  | some e => .error e
  | none => .ok (f s)

/-- Run fallible stages in sequence on the in-transaction working state,
stopping at the first raised error. -/
def runSteps (steps : List (DBState → Except SqlError DBState)) (s : DBState) :
    Except SqlError DBState :=
  match steps with
  | [] => .ok s
  | f :: rest =>
    match f s with
    | .ok s1 => runSteps rest s1
    | .error e => .error e

/-- The seed DML statements of `init_db.py` (the app_info upserts and the
four seed loops), in execution order: under Python sqlite3's default
transaction control these are the statements that share the single implicit
transaction ended by `conn.commit()`. -/
def dmlSteps : List (DBState → DBState) :=
  [seedAppInfo, seedUsers, seedGames, seedGameScores, seedAnalyticsEvents]

/-- One run of the database work of `init_db.py` under a failure profile,
returning the durable state of the file and the propagated error, if any.
Durability follows Python sqlite3's default (legacy) transaction control:
the CREATE TABLE / CREATE INDEX statements run with no transaction open and
autocommit one by one, so `profile 0 = some e` (schema statement number
`ddlDone` raises) leaves the `ddlDone` statements already executed durable;
the first seed INSERT opens the implicit transaction, which persists only at
`conn.commit()` — on a DML-stage failure the connection is closed
uncommitted, losing every seed change while the schema remains. -/
def initDbTx (profile : FailureProfile) (ddlDone : Nat) (s : DBState) :
    DBState × Option SqlError :=
  match profile 0 with
  | some e => ((schemaItems.take ddlDone).foldl schemaStep s, some e)
  | none =>
    match runSteps (dmlSteps.enum.map fun p => liftStep p.2 (profile (p.1 + 1)))
        (createSchema s) with
    | .ok s2 => (s2, none)
    | .error e => (createSchema s, some e)

/-- An exception as the script's caller sees it: a database error, or an OS
error (from the unguarded `os.makedirs` call). -/
inductive PyError where
  | sql (e : SqlError)
  | os (msg : String)
deriving Repr, DecidableEq

/-- Observable outcome of one `init_db.py` process: final durable database
state, the exception propagated out of the script (if any), and the warning
lines printed by the guarded artifact writes. -/
structure ScriptOutcome where
  db : DBState
  raised : Option PyError
  warnings : List String
deriving Repr, DecidableEq

/-- One full run of the `init_db.py` script. The schema/seed statements have
no enclosing try/except, so a failure there propagates and nothing after it
runs. After `conn.commit()` the script can still raise from unguarded code:
the statistics COUNT queries (`statsFail`), and — after the guarded
`db_connection.txt` write — the `os.makedirs` call executed when the
`db_visualizer` directory is missing (`dirMissing` / `mkdirFail`). Only the
two artifact file writes are wrapped in try/except and demoted to warnings.
A raise after the commit leaves the committed database state in place. -/
def initDbScript (profile : FailureProfile) (ddlDone : Nat)
    (statsFail : Option SqlError) (dirMissing : Bool) (mkdirFail : Option String)
    (connFileFails envFileFails : Bool) (s : DBState) : ScriptOutcome :=
  let r := initDbTx profile ddlDone s
  match r.2 with
  | some e => { db := r.1, raised := some (PyError.sql e), warnings := [] }
  | none =>
    match statsFail with
    | some e => { db := r.1, raised := some (PyError.sql e), warnings := [] }
    | none =>
      let w1 := if connFileFails then ["Warning: Could not save connection info"] else []
      if dirMissing then
        match mkdirFail with
        | some msg => { db := r.1, raised := some (PyError.os msg), warnings := w1 }
        | none =>
          { db := r.1, raised := none,
            warnings := w1 ++
              (if envFileFails then ["Warning: Could not save environment variables"] else []) }
      else
        { db := r.1, raised := none,
          warnings := w1 ++
            (if envFileFails then ["Warning: Could not save environment variables"] else []) }

end GamingDB

namespace HealthServer

open GamingDB

/-- A SQLite column value as seen through the Python driver (string, integer
or NULL), used to model the first column of `cur.fetchone()`. -/
inductive SqlValue where
  | str (v : String)
  | int (v : Int)
  | null
deriving Repr, DecidableEq

/-- Outcome of `sqlite3.connect(...)` plus `PRAGMA quick_check`: either some
exception (its text), or the first column of the fetched row (`none` when
`fetchone()` returned no row). -/
def ConnAttempt := Except String (Option SqlValue)

/-- Python's `str.lower()` as used on the quick_check result (lower-cases the
ASCII letters, which covers every value the comparison can meet). -/
def strLower (s : String) : String := ⟨s.data.map Char.toLower⟩

/-- The `check_sqlite_health` function of `health_server.py`: returns
(healthy, detail). -/
def check_sqlite_health (db_path : String) (fileExists : Bool)
    (conn : Except String (Option SqlValue)) : Bool × String :=
  if !fileExists then
    (false, "SQLite database file not found at " ++ db_path)
  else
    match conn with
    | .error e => (false, "SQLite error: " ++ e)
    | .ok result =>
      match result with
      | some (.str v) => if strLower v == "ok" then (true, "ok") else (true, "opened")
      | _ => (true, "opened")

/-- A JSON value as produced by the handler's payload dictionary. -/
inductive JsonValue where
  | str (s : String)
  | int (n : Int)
deriving Repr, DecidableEq

/-- An HTTP response of the handler: a JSON payload via `_send`, or an error
page via `send_error`. -/
inductive Response where
  | json (code : Nat) (payload : List (String × JsonValue))
  | err (code : Nat) (message : String)
deriving Repr, DecidableEq

/-- The four health paths recognised by `do_GET`. -/
def healthPaths : List String := ["/", "/health", "/ready", "/live"]

/-- The `do_GET` handler of `health_server.py`, as a function of the URL path
component, the database-file environment and the current unix time. -/
def do_GET (db_path : String) (fileExists : Bool)
    (conn : Except String (Option SqlValue)) (now : Int) (path : String) : Response :=
  if healthPaths.contains path then
    let hd := check_sqlite_health db_path fileExists conn
    Response.json (if hd.1 then 200 else 503)
      [("service", .str "gaming_database"),
       ("status", .str (if hd.1 then "ok" else "unavailable")),
       ("database", .str "sqlite"),
       ("detail", .str hd.2),
       ("db_path", .str db_path),
       ("time", .int now)]
  else
    Response.err 404 "Not Found"

/-- Outcome of the `subprocess.run([... init_db.py], check=True)` call:
with `check=True` a nonzero exit raises CalledProcessError. -/
inductive SubprocessOutcome where
  | success
  | failure (msg : String)
deriving Repr, DecidableEq

/-- The `init_db_if_needed` function of `health_server.py`: returns whether
the initializer subprocess was invoked and the error line logged, if any.
The whole body is wrapped in try/except, so it never raises. -/
def init_db_if_needed (dbFileExists : Bool) (dbFileSize : Nat)
    (initScriptExists : Bool) (run : SubprocessOutcome) : Bool × Option String :=
  if !dbFileExists || dbFileSize == 0 then
    if initScriptExists then
      match run with
      | .success => (true, none)
      | .failure e => (true, some ("[health_server] DB initialization error: " ++ e))
    else (false, none)
  else (false, none)

/-- Result of the startup sequence of `main`. -/
structure ServerStartup where
  invokedInit : Bool
  loggedError : Option String
  listening : Bool
deriving Repr, DecidableEq

/-- The startup sequence of `main` in `health_server.py`: run
`init_db_if_needed`, then bind the TCP server and serve. -/
def main_startup (dbFileExists : Bool) (dbFileSize : Nat)
    (initScriptExists : Bool) (run : SubprocessOutcome) : ServerStartup :=
  let r := init_db_if_needed dbFileExists dbFileSize initScriptExists run
  { invokedInit := r.1, loggedError := r.2, listening := true }

end HealthServer

namespace GamingDB

/-- A database state whose pre-existing `users` table holds a row with
id 0 (legal in SQLite when rows were inserted with an explicit id), used to
exercise the Python truthiness guard of the `combos` loop. -/
def zeroIdState : DBState :=
  { emptyDB with
    users := ⟨[⟨0, "alice", "alice@example.com", none, none, "en"⟩], 5⟩,
    games := ⟨[⟨1, "quiz_master", "Quiz Master", "A general knowledge quiz game.", "quiz", 1⟩], 1⟩ }

/-- The schema object of `it` exists (by name) in the catalogue of `s`. -/
def presentIn (s : DBState) (it : SchemaItem) : Prop :=
  ((if it.isIndex then s.indices else s.tables).any (fun o => o.1 == it.name)) = true

/-- Some `users` row matches the candidate's username or email. -/
def userSeen (c : UserSeed) (s : DBState) : Prop :=
  s.users.rows.any (userMatches c) = true

/-- Some `games` row matches the candidate's code. -/
def gameSeen (c : GameSeed) (s : DBState) : Prop :=
  s.games.rows.any (fun r => r.code == c.code) = true

/-- The `combos` candidate is settled in `s`: either its truthiness guard
fails, or its exact (game_id, user_id, score) triple is already present. -/
def scoreSettled (c : ScoreSeed) (s : DBState) : Prop :=
  (pyTruthy (get_id_games s c.game_code) && pyTruthy (get_id_users s c.username)) = false ∨
  tripleExists s ((get_id_games s c.game_code).getD 0) ((get_id_users s c.username).getD 0) c.score = true

/-- Effect of one `INSERT OR REPLACE` on the (key, value) view of app_info. -/
def kvUp (kv : String × String) (l : List (String × String)) : List (String × String) :=
  l.filter (fun p => p.1 != kv.1) ++ [kv]

/-- Effect of the four app_info upserts on the (key, value) view. -/
def kvUpAll (l : List (String × String)) : List (String × String) :=
  seedAppInfoRows.foldl (fun acc kv => kvUp kv acc) l

/-- A (key, value) pair whose key is none of the four seeded app_info keys. -/
def notSeedKey (p : String × String) : Bool :=
  p.1 != "project_name" && p.1 != "version" && p.1 != "author" && p.1 != "description"

end GamingDB

section FoldLemmas

variable {σ α β : Type}

lemma foldl_proj_eq (f : σ → α → σ) (proj : σ → β)
    (h : ∀ s a, proj (f s a) = proj s) :
    ∀ (l : List α) (s : σ), proj (List.foldl f s l) = proj s := by
  intro l
  induction l with
  | nil => intro s; rfl
  | cons a t ih => intro s; rw [List.foldl_cons, ih, h]

lemma foldl_sim (f : σ → α → σ) (proj : σ → β) (g : β → α → β)
    (h : ∀ s a, proj (f s a) = g (proj s) a) :
    ∀ (l : List α) (s : σ), proj (List.foldl f s l) = List.foldl g (proj s) l := by
  intro l
  induction l with
  | nil => intro s; rfl
  | cons a t ih => intro s; rw [List.foldl_cons, List.foldl_cons, ih, h]

lemma foldl_id (f : σ → α → σ) :
    ∀ (l : List α) (s : σ), (∀ a ∈ l, f s a = s) → List.foldl f s l = s := by
  intro l
  induction l with
  | nil => intro s _; rfl
  | cons a t ih =>
    intro s h
    rw [List.foldl_cons, h a (List.mem_cons_self a t)]
    exact ih s (fun b hb => h b (List.mem_cons_of_mem a hb))

lemma foldl_app (f : σ → α → σ) (proj : σ → List β)
    (h : ∀ s a, ∃ t, proj (f s a) = proj s ++ t) :
    ∀ (l : List α) (s : σ), ∃ t, proj (List.foldl f s l) = proj s ++ t := by
  intro l
  induction l with
  | nil => intro s; exact ⟨[], (List.append_nil _).symm⟩
  | cons a tl ih =>
    intro s
    obtain ⟨t1, h1⟩ := h s a
    obtain ⟨t2, h2⟩ := ih (f s a)
    exact ⟨t1 ++ t2, by rw [List.foldl_cons, h2, h1, List.append_assoc]⟩

lemma foldl_pres (f : σ → α → σ) (Q : σ → Prop)
    (h : ∀ s a, Q s → Q (f s a)) :
    ∀ (l : List α) (s : σ), Q s → Q (List.foldl f s l) := by
  intro l
  induction l with
  | nil => intro s hs; exact hs
  | cons a t ih => intro s hs; rw [List.foldl_cons]; exact ih (f s a) (h s a hs)

lemma foldl_ensures (f : σ → α → σ) (P : α → σ → Prop)
    (hens : ∀ s a, P a (f s a))
    (hpres : ∀ s a b, P b s → P b (f s a)) :
    ∀ (l : List α) (s : σ) (a : α), a ∈ l → P a (List.foldl f s l) := by
  intro l
  induction l with
  | nil => intro s a ha; cases ha
  | cons x t ih =>
    intro s a ha
    rw [List.foldl_cons]
    rcases List.mem_cons.mp ha with rfl | hmem
    · exact foldl_pres f (P a) (fun s' b => hpres s' b a) t (f s a) (hens s a)
    · exact ih (f s x) a hmem

end FoldLemmas

namespace GamingDB

lemma ensureNamed_any (objs : List (String × String)) (name sql : String)
    (p : String × String → Bool) (h : objs.any p = true) :
    (ensureNamed objs name sql).any p = true := by
  unfold ensureNamed
  split
  · exact h
  · simp [List.any_append, h]

lemma ensureNamed_present (objs : List (String × String)) (name sql : String) :
    (ensureNamed objs name sql).any (fun o => o.1 == name) = true := by
  unfold ensureNamed
  split
  · next h => exact h
  · simp [List.any_append]

lemma ensureNamed_id (objs : List (String × String)) (name sql : String)
    (h : objs.any (fun o => o.1 == name) = true) :
    ensureNamed objs name sql = objs := by
  unfold ensureNamed
  simp [h]

lemma schemaStep_app_info (s : DBState) (it : SchemaItem) :
    (schemaStep s it).app_info = s.app_info := by
  unfold schemaStep; split <;> rfl

lemma schemaStep_users (s : DBState) (it : SchemaItem) :
    (schemaStep s it).users = s.users := by
  unfold schemaStep; split <;> rfl

lemma schemaStep_games (s : DBState) (it : SchemaItem) :
    (schemaStep s it).games = s.games := by
  unfold schemaStep; split <;> rfl

lemma schemaStep_game_scores (s : DBState) (it : SchemaItem) :
    (schemaStep s it).game_scores = s.game_scores := by
  unfold schemaStep; split <;> rfl

lemma schemaStep_analytics_events (s : DBState) (it : SchemaItem) :
    (schemaStep s it).analytics_events = s.analytics_events := by
  unfold schemaStep; split <;> rfl

lemma createSchema_app_info (s : DBState) : (createSchema s).app_info = s.app_info :=
  foldl_proj_eq schemaStep (fun s => s.app_info) schemaStep_app_info schemaItems s

lemma createSchema_users (s : DBState) : (createSchema s).users = s.users :=
  foldl_proj_eq schemaStep (fun s => s.users) schemaStep_users schemaItems s

lemma createSchema_games (s : DBState) : (createSchema s).games = s.games :=
  foldl_proj_eq schemaStep (fun s => s.games) schemaStep_games schemaItems s

lemma createSchema_game_scores (s : DBState) : (createSchema s).game_scores = s.game_scores :=
  foldl_proj_eq schemaStep (fun s => s.game_scores) schemaStep_game_scores schemaItems s

lemma createSchema_analytics_events (s : DBState) :
    (createSchema s).analytics_events = s.analytics_events :=
  foldl_proj_eq schemaStep (fun s => s.analytics_events) schemaStep_analytics_events schemaItems s

lemma schemaStep_present (s : DBState) (it : SchemaItem) : presentIn (schemaStep s it) it := by
  unfold presentIn schemaStep
  split <;> exact ensureNamed_present _ _ _

lemma schemaStep_present_pres (s : DBState) (a b : SchemaItem)
    (h : presentIn s b) : presentIn (schemaStep s a) b := by
  unfold presentIn at h ⊢
  unfold schemaStep
  by_cases hb : b.isIndex = true
  · rw [if_pos hb] at h ⊢
    split
    · exact ensureNamed_any _ _ _ _ h
    · exact h
  · rw [if_neg hb] at h ⊢
    split
    · exact h
    · exact ensureNamed_any _ _ _ _ h

lemma createSchema_present (s : DBState) :
    ∀ it ∈ schemaItems, presentIn (createSchema s) it :=
  fun it hit =>
    foldl_ensures schemaStep (fun it s => presentIn s it)
      schemaStep_present (fun s a b hb => schemaStep_present_pres s a b hb)
      schemaItems s it hit

lemma schemaStep_id (s : DBState) (it : SchemaItem) (h : presentIn s it) :
    schemaStep s it = s := by
  unfold presentIn at h
  unfold schemaStep
  split
  · next hidx => rw [if_pos hidx] at h; rw [ensureNamed_id _ _ _ h]
  · next hidx => rw [if_neg hidx] at h; rw [ensureNamed_id _ _ _ h]

lemma createSchema_id (s : DBState) (h : ∀ it ∈ schemaItems, presentIn s it) :
    createSchema s = s :=
  foldl_id schemaStep schemaItems s (fun it hit => schemaStep_id s it (h it hit))

lemma presentIn_transport (s s' : DBState) (it : SchemaItem)
    (h1 : s'.tables = s.tables) (h2 : s'.indices = s.indices)
    (h : presentIn s it) : presentIn s' it := by
  unfold presentIn at *
  rw [h1, h2]
  exact h

end GamingDB

namespace GamingDB

lemma seedAppInfo_tables (s : DBState) : (seedAppInfo s).tables = s.tables :=
  foldl_proj_eq insertOrReplaceAppInfo (fun s => s.tables) (fun _ _ => rfl) seedAppInfoRows s

lemma seedAppInfo_indices (s : DBState) : (seedAppInfo s).indices = s.indices :=
  foldl_proj_eq insertOrReplaceAppInfo (fun s => s.indices) (fun _ _ => rfl) seedAppInfoRows s

lemma seedAppInfo_users (s : DBState) : (seedAppInfo s).users = s.users :=
  foldl_proj_eq insertOrReplaceAppInfo (fun s => s.users) (fun _ _ => rfl) seedAppInfoRows s

lemma seedAppInfo_games (s : DBState) : (seedAppInfo s).games = s.games :=
  foldl_proj_eq insertOrReplaceAppInfo (fun s => s.games) (fun _ _ => rfl) seedAppInfoRows s

lemma seedAppInfo_game_scores (s : DBState) : (seedAppInfo s).game_scores = s.game_scores :=
  foldl_proj_eq insertOrReplaceAppInfo (fun s => s.game_scores) (fun _ _ => rfl) seedAppInfoRows s

lemma seedAppInfo_analytics_events (s : DBState) :
    (seedAppInfo s).analytics_events = s.analytics_events :=
  foldl_proj_eq insertOrReplaceAppInfo (fun s => s.analytics_events) (fun _ _ => rfl)
    seedAppInfoRows s

lemma mapKV_filter (rows : List AppInfoRow) (k : String) :
    (rows.filter (fun r => r.key != k)).map (fun r => (r.key, r.value)) =
      (rows.map (fun r => (r.key, r.value))).filter (fun p => p.1 != k) := by
  induction rows with
  | nil => rfl
  | cons r t ih =>
    simp only [List.filter_cons, List.map_cons]
    cases h : r.key != k <;> simp [h, ih]

lemma appKV_upsert (s : DBState) (kv : String × String) :
    appKV (insertOrReplaceAppInfo s kv) = kvUp kv (appKV s) := by
  unfold appKV insertOrReplaceAppInfo kvUp
  simp only [List.map_append, List.map_cons, List.map_nil]
  rw [mapKV_filter]

lemma seedAppInfo_kv (s : DBState) : appKV (seedAppInfo s) = kvUpAll (appKV s) :=
  foldl_sim insertOrReplaceAppInfo appKV (fun l kv => kvUp kv l) appKV_upsert seedAppInfoRows s

lemma kvUpAll_eq (l : List (String × String)) :
    kvUpAll l = l.filter notSeedKey ++ seedAppInfoRows := by
  unfold kvUpAll seedAppInfoRows
  simp only [List.foldl_cons, List.foldl_nil]
  unfold kvUp
  simp only [List.filter_append]
  rw [List.filter_filter, List.filter_filter, List.filter_filter]
  have hc : ∀ a ∈ l,
      (a.1 != "description" && a.1 != "author" && a.1 != "version" && a.1 != "project_name") =
        notSeedKey a := by
    intro a _
    unfold notSeedKey
    cases h1 : (a.1 != "project_name") <;> cases h2 : (a.1 != "version") <;>
      cases h3 : (a.1 != "author") <;> cases h4 : (a.1 != "description") <;>
        simp [h1, h2, h3, h4]
  rw [List.filter_congr hc]
  simp

lemma kvUpAll_idem (l : List (String × String)) : kvUpAll (kvUpAll l) = kvUpAll l := by
  rw [kvUpAll_eq, kvUpAll_eq, List.filter_append]
  have h1 : (l.filter notSeedKey).filter notSeedKey = l.filter notSeedKey := by
    rw [List.filter_filter]
    exact List.filter_congr (fun a _ => Bool.and_self (notSeedKey a))
  have h2 : seedAppInfoRows.filter notSeedKey = [] := by decide
  rw [h1, h2, List.append_nil]

end GamingDB

namespace GamingDB

lemma insertUser_tables (s : DBState) (c : UserSeed) :
    (insertUserIfAbsent s c).tables = s.tables := by
  unfold insertUserIfAbsent; split <;> rfl

lemma insertUser_indices (s : DBState) (c : UserSeed) :
    (insertUserIfAbsent s c).indices = s.indices := by
  unfold insertUserIfAbsent; split <;> rfl

lemma insertUser_app_info (s : DBState) (c : UserSeed) :
    (insertUserIfAbsent s c).app_info = s.app_info := by
  unfold insertUserIfAbsent; split <;> rfl

lemma insertUser_games (s : DBState) (c : UserSeed) :
    (insertUserIfAbsent s c).games = s.games := by
  unfold insertUserIfAbsent; split <;> rfl

lemma insertUser_game_scores (s : DBState) (c : UserSeed) :
    (insertUserIfAbsent s c).game_scores = s.game_scores := by
  unfold insertUserIfAbsent; split <;> rfl

lemma insertUser_analytics_events (s : DBState) (c : UserSeed) :
    (insertUserIfAbsent s c).analytics_events = s.analytics_events := by
  unfold insertUserIfAbsent; split <;> rfl

lemma insertUser_rows_app (s : DBState) (c : UserSeed) :
    ∃ t, (insertUserIfAbsent s c).users.rows = s.users.rows ++ t := by
  unfold insertUserIfAbsent
  split
  · exact ⟨[], (List.append_nil _).symm⟩
  · exact ⟨_, rfl⟩

lemma insertUser_seen (s : DBState) (c : UserSeed) : userSeen c (insertUserIfAbsent s c) := by
  unfold userSeen insertUserIfAbsent
  split
  · next h => exact h
  · simp [List.any_append, userMatches]

lemma insertUser_pres (s : DBState) (c b : UserSeed)
    (h : userSeen b s) : userSeen b (insertUserIfAbsent s c) := by
  unfold userSeen at h ⊢
  unfold insertUserIfAbsent
  split
  · exact h
  · simp only [List.any_append, h, Bool.true_or]

lemma insertUser_id (s : DBState) (c : UserSeed) (h : userSeen c s) :
    insertUserIfAbsent s c = s := by
  unfold userSeen at h
  unfold insertUserIfAbsent
  rw [if_pos h]

lemma seedUsers_tables (s : DBState) : (seedUsers s).tables = s.tables :=
  foldl_proj_eq insertUserIfAbsent (fun s => s.tables) insertUser_tables seed_users s

lemma seedUsers_indices (s : DBState) : (seedUsers s).indices = s.indices :=
  foldl_proj_eq insertUserIfAbsent (fun s => s.indices) insertUser_indices seed_users s

lemma seedUsers_app_info (s : DBState) : (seedUsers s).app_info = s.app_info :=
  foldl_proj_eq insertUserIfAbsent (fun s => s.app_info) insertUser_app_info seed_users s

lemma seedUsers_games (s : DBState) : (seedUsers s).games = s.games :=
  foldl_proj_eq insertUserIfAbsent (fun s => s.games) insertUser_games seed_users s

lemma seedUsers_game_scores (s : DBState) : (seedUsers s).game_scores = s.game_scores :=
  foldl_proj_eq insertUserIfAbsent (fun s => s.game_scores) insertUser_game_scores seed_users s

lemma seedUsers_analytics_events (s : DBState) :
    (seedUsers s).analytics_events = s.analytics_events :=
  foldl_proj_eq insertUserIfAbsent (fun s => s.analytics_events) insertUser_analytics_events
    seed_users s

lemma seedUsers_rows_app (s : DBState) : ∃ t, (seedUsers s).users.rows = s.users.rows ++ t :=
  foldl_app insertUserIfAbsent (fun s => s.users.rows) insertUser_rows_app seed_users s

lemma seedUsers_seen (s : DBState) : ∀ c ∈ seed_users, userSeen c (seedUsers s) :=
  fun c hc =>
    foldl_ensures insertUserIfAbsent userSeen insertUser_seen
      (fun s a b hb => insertUser_pres s a b hb) seed_users s c hc

lemma seedUsers_id (s : DBState) (h : ∀ c ∈ seed_users, userSeen c s) : seedUsers s = s :=
  foldl_id insertUserIfAbsent seed_users s (fun c hc => insertUser_id s c (h c hc))

lemma userSeen_transport (s s' : DBState) (c : UserSeed)
    (hu : s'.users = s.users) (h : userSeen c s) : userSeen c s' := by
  unfold userSeen at h ⊢
  rw [hu]
  exact h

lemma insertGame_tables (s : DBState) (c : GameSeed) :
    (insertGameIfAbsent s c).tables = s.tables := by
  unfold insertGameIfAbsent; split <;> rfl

lemma insertGame_indices (s : DBState) (c : GameSeed) :
    (insertGameIfAbsent s c).indices = s.indices := by
  unfold insertGameIfAbsent; split <;> rfl

lemma insertGame_app_info (s : DBState) (c : GameSeed) :
    (insertGameIfAbsent s c).app_info = s.app_info := by
  unfold insertGameIfAbsent; split <;> rfl

lemma insertGame_users (s : DBState) (c : GameSeed) :
    (insertGameIfAbsent s c).users = s.users := by
  unfold insertGameIfAbsent; split <;> rfl

lemma insertGame_game_scores (s : DBState) (c : GameSeed) :
    (insertGameIfAbsent s c).game_scores = s.game_scores := by
  unfold insertGameIfAbsent; split <;> rfl

lemma insertGame_analytics_events (s : DBState) (c : GameSeed) :
    (insertGameIfAbsent s c).analytics_events = s.analytics_events := by
  unfold insertGameIfAbsent; split <;> rfl

lemma insertGame_rows_app (s : DBState) (c : GameSeed) :
    ∃ t, (insertGameIfAbsent s c).games.rows = s.games.rows ++ t := by
  unfold insertGameIfAbsent
  split
  · exact ⟨[], (List.append_nil _).symm⟩
  · exact ⟨_, rfl⟩

lemma insertGame_seen (s : DBState) (c : GameSeed) : gameSeen c (insertGameIfAbsent s c) := by
  unfold gameSeen insertGameIfAbsent
  split
  · next h => exact h
  · simp [List.any_append]

lemma insertGame_pres (s : DBState) (c b : GameSeed)
    (h : gameSeen b s) : gameSeen b (insertGameIfAbsent s c) := by
  unfold gameSeen at h ⊢
  unfold insertGameIfAbsent
  split
  · exact h
  · simp only [List.any_append, h, Bool.true_or]

lemma insertGame_id (s : DBState) (c : GameSeed) (h : gameSeen c s) :
    insertGameIfAbsent s c = s := by
  unfold gameSeen at h
  unfold insertGameIfAbsent
  rw [if_pos h]

lemma seedGames_tables (s : DBState) : (seedGames s).tables = s.tables :=
  foldl_proj_eq insertGameIfAbsent (fun s => s.tables) insertGame_tables seed_games s

lemma seedGames_indices (s : DBState) : (seedGames s).indices = s.indices :=
  foldl_proj_eq insertGameIfAbsent (fun s => s.indices) insertGame_indices seed_games s

lemma seedGames_app_info (s : DBState) : (seedGames s).app_info = s.app_info :=
  foldl_proj_eq insertGameIfAbsent (fun s => s.app_info) insertGame_app_info seed_games s

lemma seedGames_users (s : DBState) : (seedGames s).users = s.users :=
  foldl_proj_eq insertGameIfAbsent (fun s => s.users) insertGame_users seed_games s

lemma seedGames_game_scores (s : DBState) : (seedGames s).game_scores = s.game_scores :=
  foldl_proj_eq insertGameIfAbsent (fun s => s.game_scores) insertGame_game_scores seed_games s

lemma seedGames_analytics_events (s : DBState) :
    (seedGames s).analytics_events = s.analytics_events :=
  foldl_proj_eq insertGameIfAbsent (fun s => s.analytics_events) insertGame_analytics_events
    seed_games s

lemma seedGames_rows_app (s : DBState) : ∃ t, (seedGames s).games.rows = s.games.rows ++ t :=
  foldl_app insertGameIfAbsent (fun s => s.games.rows) insertGame_rows_app seed_games s

lemma seedGames_seen (s : DBState) : ∀ c ∈ seed_games, gameSeen c (seedGames s) :=
  fun c hc =>
    foldl_ensures insertGameIfAbsent gameSeen insertGame_seen
      (fun s a b hb => insertGame_pres s a b hb) seed_games s c hc

lemma seedGames_id (s : DBState) (h : ∀ c ∈ seed_games, gameSeen c s) : seedGames s = s :=
  foldl_id insertGameIfAbsent seed_games s (fun c hc => insertGame_id s c (h c hc))

lemma gameSeen_transport (s s' : DBState) (c : GameSeed)
    (hg : s'.games = s.games) (h : gameSeen c s) : gameSeen c s' := by
  unfold gameSeen at h ⊢
  rw [hg]
  exact h

end GamingDB

namespace GamingDB

lemma insertScore_tables (s : DBState) (c : ScoreSeed) :
    (insertScoreIfAbsent s c).tables = s.tables := by
  unfold insertScoreIfAbsent
  dsimp only
  split
  · split <;> rfl
  · rfl

lemma insertScore_indices (s : DBState) (c : ScoreSeed) :
    (insertScoreIfAbsent s c).indices = s.indices := by
  unfold insertScoreIfAbsent
  dsimp only
  split
  · split <;> rfl
  · rfl

lemma insertScore_app_info (s : DBState) (c : ScoreSeed) :
    (insertScoreIfAbsent s c).app_info = s.app_info := by
  unfold insertScoreIfAbsent
  dsimp only
  split
  · split <;> rfl
  · rfl

lemma insertScore_users (s : DBState) (c : ScoreSeed) :
    (insertScoreIfAbsent s c).users = s.users := by
  unfold insertScoreIfAbsent
  dsimp only
  split
  · split <;> rfl
  · rfl

lemma insertScore_games (s : DBState) (c : ScoreSeed) :
    (insertScoreIfAbsent s c).games = s.games := by
  unfold insertScoreIfAbsent
  dsimp only
  split
  · split <;> rfl
  · rfl

lemma insertScore_analytics_events (s : DBState) (c : ScoreSeed) :
    (insertScoreIfAbsent s c).analytics_events = s.analytics_events := by
  unfold insertScoreIfAbsent
  dsimp only
  split
  · split <;> rfl
  · rfl

lemma insertScore_rows_app (s : DBState) (c : ScoreSeed) :
    ∃ t, (insertScoreIfAbsent s c).game_scores.rows = s.game_scores.rows ++ t := by
  unfold insertScoreIfAbsent
  dsimp only
  split
  · split
    · exact ⟨[], (List.append_nil _).symm⟩
    · exact ⟨_, rfl⟩
  · exact ⟨[], (List.append_nil _).symm⟩

lemma insertScore_char (s : DBState) (c : ScoreSeed) :
    ((pyTruthy (get_id_games s c.game_code) && pyTruthy (get_id_users s c.username)) = false →
      insertScoreIfAbsent s c = s) ∧
    ((pyTruthy (get_id_games s c.game_code) && pyTruthy (get_id_users s c.username)) = true →
      tripleExists s ((get_id_games s c.game_code).getD 0) ((get_id_users s c.username).getD 0)
          c.score = true →
      insertScoreIfAbsent s c = s) ∧
    ((pyTruthy (get_id_games s c.game_code) && pyTruthy (get_id_users s c.username)) = true →
      tripleExists s ((get_id_games s c.game_code).getD 0) ((get_id_users s c.username).getD 0)
          c.score = false →
      insertScoreIfAbsent s c =
        { s with game_scores :=
            ⟨s.game_scores.rows ++
              [⟨s.game_scores.seq + 1, (get_id_games s c.game_code).getD 0,
                (get_id_users s c.username).getD 0, c.score, none⟩],
             s.game_scores.seq + 1⟩ }) := by
  refine ⟨?_, ?_, ?_⟩
  · intro h
    unfold insertScoreIfAbsent
    dsimp only
    rw [h]
    simp
  · intro h htr
    unfold insertScoreIfAbsent
    dsimp only
    rw [h, htr]
    simp
  · intro h htr
    unfold insertScoreIfAbsent
    dsimp only
    rw [h, htr]
    simp

lemma insertScore_settled (s : DBState) (c : ScoreSeed) :
    scoreSettled c (insertScoreIfAbsent s c) := by
  cases hcond : (pyTruthy (get_id_games s c.game_code) && pyTruthy (get_id_users s c.username)) with
  | false =>
    rw [(insertScore_char s c).1 hcond]
    exact Or.inl hcond
  | true =>
    cases htr : tripleExists s ((get_id_games s c.game_code).getD 0)
        ((get_id_users s c.username).getD 0) c.score with
    | true =>
      rw [(insertScore_char s c).2.1 hcond htr]
      exact Or.inr htr
    | false =>
      rw [(insertScore_char s c).2.2 hcond htr]
      right
      unfold tripleExists get_id_games get_id_users
      dsimp only
      simp [List.any_append]

lemma scoreSettled_transport (s s' : DBState) (c : ScoreSeed)
    (hg : s'.games = s.games) (hu : s'.users = s.users)
    (hs : ∃ t, s'.game_scores.rows = s.game_scores.rows ++ t)
    (h : scoreSettled c s) : scoreSettled c s' := by
  obtain ⟨t, ht⟩ := hs
  have hG : get_id_games s' c.game_code = get_id_games s c.game_code := by
    unfold get_id_games; rw [hg]
  have hU : get_id_users s' c.username = get_id_users s c.username := by
    unfold get_id_users; rw [hu]
  unfold scoreSettled at h ⊢
  rw [hG, hU]
  rcases h with h | h
  · exact Or.inl h
  · right
    unfold tripleExists at h ⊢
    rw [ht, List.any_append, h]
    rfl

lemma insertScore_pres (s : DBState) (c b : ScoreSeed)
    (h : scoreSettled b s) : scoreSettled b (insertScoreIfAbsent s c) :=
  scoreSettled_transport s _ b (insertScore_games s c) (insertScore_users s c)
    (insertScore_rows_app s c) h

lemma insertScore_id (s : DBState) (c : ScoreSeed) (h : scoreSettled c s) :
    insertScoreIfAbsent s c = s := by
  cases hcond : (pyTruthy (get_id_games s c.game_code) && pyTruthy (get_id_users s c.username)) with
  | false => exact (insertScore_char s c).1 hcond
  | true =>
    rcases h with h | h
    · rw [hcond] at h; cases h
    · exact (insertScore_char s c).2.1 hcond h

lemma seedGameScores_tables (s : DBState) : (seedGameScores s).tables = s.tables :=
  foldl_proj_eq insertScoreIfAbsent (fun s => s.tables) insertScore_tables combos s

lemma seedGameScores_indices (s : DBState) : (seedGameScores s).indices = s.indices :=
  foldl_proj_eq insertScoreIfAbsent (fun s => s.indices) insertScore_indices combos s

lemma seedGameScores_app_info (s : DBState) : (seedGameScores s).app_info = s.app_info :=
  foldl_proj_eq insertScoreIfAbsent (fun s => s.app_info) insertScore_app_info combos s

lemma seedGameScores_users (s : DBState) : (seedGameScores s).users = s.users :=
  foldl_proj_eq insertScoreIfAbsent (fun s => s.users) insertScore_users combos s

lemma seedGameScores_games (s : DBState) : (seedGameScores s).games = s.games :=
  foldl_proj_eq insertScoreIfAbsent (fun s => s.games) insertScore_games combos s

lemma seedGameScores_analytics_events (s : DBState) :
    (seedGameScores s).analytics_events = s.analytics_events :=
  foldl_proj_eq insertScoreIfAbsent (fun s => s.analytics_events) insertScore_analytics_events
    combos s

lemma seedGameScores_rows_app (s : DBState) :
    ∃ t, (seedGameScores s).game_scores.rows = s.game_scores.rows ++ t :=
  foldl_app insertScoreIfAbsent (fun s => s.game_scores.rows) insertScore_rows_app combos s

lemma seedGameScores_settled (s : DBState) : ∀ c ∈ combos, scoreSettled c (seedGameScores s) :=
  fun c hc =>
    foldl_ensures insertScoreIfAbsent scoreSettled insertScore_settled
      (fun s a b hb => insertScore_pres s a b hb) combos s c hc

lemma seedGameScores_id (s : DBState) (h : ∀ c ∈ combos, scoreSettled c s) :
    seedGameScores s = s :=
  foldl_id insertScoreIfAbsent combos s (fun c hc => insertScore_id s c (h c hc))

lemma insertEvent_len (s : DBState) (c : EventSeed) :
    (insertAnalyticsEvent s c).analytics_events.rows.length =
      s.analytics_events.rows.length + 1 := by
  unfold insertAnalyticsEvent
  dsimp only
  simp

lemma insertEvent_rows_app (s : DBState) (c : EventSeed) :
    ∃ t, (insertAnalyticsEvent s c).analytics_events.rows = s.analytics_events.rows ++ t :=
  ⟨_, rfl⟩

lemma seedAnalyticsEvents_tables (s : DBState) : (seedAnalyticsEvents s).tables = s.tables :=
  foldl_proj_eq insertAnalyticsEvent (fun s => s.tables) (fun _ _ => rfl) seedEventRows s

lemma seedAnalyticsEvents_indices (s : DBState) : (seedAnalyticsEvents s).indices = s.indices :=
  foldl_proj_eq insertAnalyticsEvent (fun s => s.indices) (fun _ _ => rfl) seedEventRows s

lemma seedAnalyticsEvents_app_info (s : DBState) :
    (seedAnalyticsEvents s).app_info = s.app_info :=
  foldl_proj_eq insertAnalyticsEvent (fun s => s.app_info) (fun _ _ => rfl) seedEventRows s

lemma seedAnalyticsEvents_users (s : DBState) : (seedAnalyticsEvents s).users = s.users :=
  foldl_proj_eq insertAnalyticsEvent (fun s => s.users) (fun _ _ => rfl) seedEventRows s

lemma seedAnalyticsEvents_games (s : DBState) : (seedAnalyticsEvents s).games = s.games :=
  foldl_proj_eq insertAnalyticsEvent (fun s => s.games) (fun _ _ => rfl) seedEventRows s

lemma seedAnalyticsEvents_game_scores (s : DBState) :
    (seedAnalyticsEvents s).game_scores = s.game_scores :=
  foldl_proj_eq insertAnalyticsEvent (fun s => s.game_scores) (fun _ _ => rfl) seedEventRows s

lemma seedAnalyticsEvents_rows_app (s : DBState) :
    ∃ t, (seedAnalyticsEvents s).analytics_events.rows = s.analytics_events.rows ++ t :=
  foldl_app insertAnalyticsEvent (fun s => s.analytics_events.rows) insertEvent_rows_app
    seedEventRows s

lemma seedAnalyticsEvents_len (s : DBState) :
    (seedAnalyticsEvents s).analytics_events.rows.length =
      s.analytics_events.rows.length + 3 := by
  have h := foldl_sim insertAnalyticsEvent (fun s => s.analytics_events.rows.length)
    (fun n _ => n + 1) insertEvent_len seedEventRows s
  simpa [seedAnalyticsEvents] using h

end GamingDB

namespace GamingDB

lemma initDb_eq (s : DBState) :
    initDb s =
      seedAnalyticsEvents (seedGameScores (seedGames (seedUsers (seedAppInfo (createSchema s))))) := by
  simp only [initDb, initSteps, List.foldl_cons, List.foldl_nil]

lemma appKV_congr (s s' : DBState) (h : s'.app_info = s.app_info) : appKV s' = appKV s := by
  unfold appKV
  rw [h]

lemma initDb_present (s : DBState) : ∀ it ∈ schemaItems, presentIn (initDb s) it := by
  intro it hit
  have ht : (initDb s).tables = (createSchema s).tables := by
    rw [initDb_eq, seedAnalyticsEvents_tables, seedGameScores_tables, seedGames_tables,
      seedUsers_tables, seedAppInfo_tables]
  have hi : (initDb s).indices = (createSchema s).indices := by
    rw [initDb_eq, seedAnalyticsEvents_indices, seedGameScores_indices, seedGames_indices,
      seedUsers_indices, seedAppInfo_indices]
  exact presentIn_transport _ _ it ht hi (createSchema_present s it hit)

lemma initDb_userSeen (s : DBState) : ∀ c ∈ seed_users, userSeen c (initDb s) := by
  intro c hc
  have hu : (initDb s).users = (seedUsers (seedAppInfo (createSchema s))).users := by
    rw [initDb_eq, seedAnalyticsEvents_users, seedGameScores_users, seedGames_users]
  exact userSeen_transport _ _ c hu (seedUsers_seen _ c hc)

lemma initDb_gameSeen (s : DBState) : ∀ c ∈ seed_games, gameSeen c (initDb s) := by
  intro c hc
  have hg : (initDb s).games = (seedGames (seedUsers (seedAppInfo (createSchema s)))).games := by
    rw [initDb_eq, seedAnalyticsEvents_games, seedGameScores_games]
  exact gameSeen_transport _ _ c hg (seedGames_seen _ c hc)

lemma initDb_scoreSettled (s : DBState) : ∀ c ∈ combos, scoreSettled c (initDb s) := by
  intro c hc
  refine scoreSettled_transport
    (seedGameScores (seedGames (seedUsers (seedAppInfo (createSchema s))))) (initDb s) c
    ?_ ?_ ?_ (seedGameScores_settled _ c hc)
  · rw [initDb_eq, seedAnalyticsEvents_games]
  · rw [initDb_eq, seedAnalyticsEvents_users]
  · exact ⟨[], by rw [initDb_eq, seedAnalyticsEvents_game_scores, List.append_nil]⟩

lemma initDb_kv (s : DBState) : appKV (initDb s) = kvUpAll (appKV s) := by
  rw [initDb_eq,
    appKV_congr _ _ (seedAnalyticsEvents_app_info _),
    appKV_congr _ _ (seedGameScores_app_info _),
    appKV_congr _ _ (seedGames_app_info _),
    appKV_congr _ _ (seedUsers_app_info _),
    seedAppInfo_kv,
    appKV_congr _ _ (createSchema_app_info _)]

lemma initDb_events_len (s : DBState) :
    (initDb s).analytics_events.rows.length = s.analytics_events.rows.length + 3 := by
  rw [initDb_eq, seedAnalyticsEvents_len, seedGameScores_analytics_events,
    seedGames_analytics_events, seedUsers_analytics_events, seedAppInfo_analytics_events,
    createSchema_analytics_events]

lemma initDb_stable (t : DBState) :
    (initDb (initDb t)).tables = (initDb t).tables ∧
    (initDb (initDb t)).indices = (initDb t).indices ∧
    (initDb (initDb t)).users = (initDb t).users ∧
    (initDb (initDb t)).games = (initDb t).games ∧
    (initDb (initDb t)).game_scores = (initDb t).game_scores ∧
    appKV (initDb (initDb t)) = appKV (initDb t) := by
  have hcs : createSchema (initDb t) = initDb t :=
    createSchema_id (initDb t) (initDb_present t)
  have hu_id : seedUsers (seedAppInfo (initDb t)) = seedAppInfo (initDb t) :=
    seedUsers_id _ (fun c hc =>
      userSeen_transport (initDb t) _ c (seedAppInfo_users (initDb t)) (initDb_userSeen t c hc))
  have hg_id : seedGames (seedAppInfo (initDb t)) = seedAppInfo (initDb t) :=
    seedGames_id _ (fun c hc =>
      gameSeen_transport (initDb t) _ c (seedAppInfo_games (initDb t)) (initDb_gameSeen t c hc))
  have hsc_id : seedGameScores (seedAppInfo (initDb t)) = seedAppInfo (initDb t) :=
    seedGameScores_id _ (fun c hc =>
      scoreSettled_transport (initDb t) _ c (seedAppInfo_games (initDb t))
        (seedAppInfo_users (initDb t))
        ⟨[], by rw [seedAppInfo_game_scores, List.append_nil]⟩
        (initDb_scoreSettled t c hc))
  have hrun : initDb (initDb t) = seedAnalyticsEvents (seedAppInfo (initDb t)) := by
    rw [initDb_eq, hcs, hu_id, hg_id, hsc_id]
  refine ⟨?_, ?_, ?_, ?_, ?_, ?_⟩
  · rw [hrun, seedAnalyticsEvents_tables, seedAppInfo_tables]
  · rw [hrun, seedAnalyticsEvents_indices, seedAppInfo_indices]
  · rw [hrun, seedAnalyticsEvents_users, seedAppInfo_users]
  · rw [hrun, seedAnalyticsEvents_games, seedAppInfo_games]
  · rw [hrun, seedAnalyticsEvents_game_scores, seedAppInfo_game_scores]
  · rw [hrun, appKV_congr _ _ (seedAnalyticsEvents_app_info _), seedAppInfo_kv,
      initDb_kv, kvUpAll_idem]

end GamingDB

namespace GamingDB

lemma runSteps_lift_ok {α : Type} (g : α → DBState → DBState) (e : α → Option SqlError) :
    ∀ (l : List α) (s s' : DBState),
      runSteps (l.map fun a => liftStep (g a) (e a)) s = .ok s' →
      s' = l.foldl (fun t a => g a t) s := by
  intro l
  induction l with
  | nil =>
    intro s s' h
    simp only [List.map_nil, runSteps] at h
    cases h
    rfl
  | cons a tl ih =>
    intro s s' h
    simp only [List.map_cons, runSteps] at h
    cases he : e a with
    | some err => simp only [liftStep, he] at h; cases h
    | none =>
      simp only [liftStep, he] at h
      rw [List.foldl_cons]
      exact ih (g a s) s' h

lemma dml_foldl (s : DBState) :
    dmlSteps.enum.foldl (fun t p => p.2 t) (createSchema s) = initDb s := by
  simp [dmlSteps, initDb, initSteps, List.enum]

end GamingDB


namespace GamingDB

/-- C1: for every N >= 1, running the Schema Initializer N times against the
same database file yields identical table and index definitions and identical
seed row sets for users, games, app_info (keyed by key: the (key, value)
view), and game_scores, while the analytics_events row count grows by exactly
3 rows on every run. -/
theorem initializer_idempotent (s : DBState) (N : Nat) (hN : 1 ≤ N) :
    (initDb^[N] s).tables = (initDb s).tables ∧
    (initDb^[N] s).indices = (initDb s).indices ∧
    (initDb^[N] s).users.rows = (initDb s).users.rows ∧
    (initDb^[N] s).games.rows = (initDb s).games.rows ∧
    (initDb^[N] s).game_scores.rows = (initDb s).game_scores.rows ∧
    appKV (initDb^[N] s) = appKV (initDb s) ∧
    (initDb^[N] s).analytics_events.rows.length = s.analytics_events.rows.length + 3 * N := by
  obtain ⟨M, rfl⟩ : ∃ M, N = M + 1 := ⟨N - 1, (Nat.succ_pred_eq_of_pos hN).symm⟩
  clear hN
  induction M with
  | zero =>
    rw [Function.iterate_one]
    refine ⟨rfl, rfl, rfl, rfl, rfl, rfl, ?_⟩
    rw [initDb_events_len]
  | succ m ih =>
    obtain ⟨h1, h2, h3, h4, h5, h6, h7⟩ := ih
    have hstep : initDb^[m + 1 + 1] s = initDb (initDb^[m + 1] s) :=
      Function.iterate_succ_apply' initDb (m + 1) s
    have hinner : initDb^[m + 1] s = initDb (initDb^[m] s) :=
      Function.iterate_succ_apply' initDb m s
    have hst := initDb_stable (initDb^[m] s)
    rw [← hinner] at hst
    refine ⟨?_, ?_, ?_, ?_, ?_, ?_, ?_⟩
    · rw [hstep, hst.1, h1]
    · rw [hstep, hst.2.1, h2]
    · rw [hstep, hst.2.2.1, h3]
    · rw [hstep, hst.2.2.2.1, h4]
    · rw [hstep, hst.2.2.2.2.1, h5]
    · rw [hstep, hst.2.2.2.2.2, h6]
    · rw [hstep, initDb_events_len, h7]
      ring

/-- Witness for C1 at s = emptyDB, N = 2. -/
theorem initializer_idempotent_witness :
    (initDb^[2] emptyDB).tables = (initDb emptyDB).tables ∧
    (initDb^[2] emptyDB).indices = (initDb emptyDB).indices ∧
    (initDb^[2] emptyDB).users.rows = (initDb emptyDB).users.rows ∧
    (initDb^[2] emptyDB).games.rows = (initDb emptyDB).games.rows ∧
    (initDb^[2] emptyDB).game_scores.rows = (initDb emptyDB).game_scores.rows ∧
    appKV (initDb^[2] emptyDB) = appKV (initDb emptyDB) ∧
    (initDb^[2] emptyDB).analytics_events.rows.length =
      emptyDB.analytics_events.rows.length + 3 * 2 :=
  initializer_idempotent emptyDB 2 (by decide)

/-- C2 counterexample: the CREATE TABLE / CREATE INDEX statements
autocommit under Python sqlite3's default transaction control, so when the
first seed DML statement fails — a failure before the single commit — the
run's schema changes DO persist: starting from an empty file the durable
state is the schema-creation result, not the prior state, refuting "none of
that run's schema or seed changes persist". -/
theorem ddl_autocommit_counterexample :
    (initDbTx (fun i => if i == 1 then some SqlError.locked else none) 0 emptyDB).2 =
      some SqlError.locked ∧
    (initDbTx (fun i => if i == 1 then some SqlError.locked else none) 0 emptyDB).1 =
      createSchema emptyDB ∧
    ¬ (initDbTx (fun i => if i == 1 then some SqlError.locked else none) 0 emptyDB).1.tables =
      emptyDB.tables := by
  refine ⟨rfl, rfl, ?_⟩
  decide

/-- C2 amended: only the seed DML (the app_info upserts and the four seed
loops) forms one atomic unit under the single `conn.commit()`: a run with no
failure persists the full run; on any failure before the commit none of the
run's seed changes persist (all five data tables keep their prior contents),
while the schema statements already executed remain durable — in particular
a failure in a DML stage leaves exactly the schema-creation result on
disk. -/
theorem initializer_seed_dml_atomic (profile : FailureProfile) (ddlDone : Nat) (s : DBState) :
    ((initDbTx profile ddlDone s).2 = none → (initDbTx profile ddlDone s).1 = initDb s) ∧
    (∀ e, (initDbTx profile ddlDone s).2 = some e →
      (initDbTx profile ddlDone s).1.app_info = s.app_info ∧
      (initDbTx profile ddlDone s).1.users = s.users ∧
      (initDbTx profile ddlDone s).1.games = s.games ∧
      (initDbTx profile ddlDone s).1.game_scores = s.game_scores ∧
      (initDbTx profile ddlDone s).1.analytics_events = s.analytics_events) ∧
    (∀ e, (initDbTx profile ddlDone s).2 = some e → profile 0 = none →
      (initDbTx profile ddlDone s).1 = createSchema s) := by
  unfold initDbTx
  cases h0 : profile 0 with
  | some e0 =>
    simp only [h0]
    refine ⟨?_, ?_, ?_⟩
    · intro h
      cases h
    · intro e _
      exact ⟨foldl_proj_eq schemaStep (fun t => t.app_info) schemaStep_app_info _ s,
        foldl_proj_eq schemaStep (fun t => t.users) schemaStep_users _ s,
        foldl_proj_eq schemaStep (fun t => t.games) schemaStep_games _ s,
        foldl_proj_eq schemaStep (fun t => t.game_scores) schemaStep_game_scores _ s,
        foldl_proj_eq schemaStep (fun t => t.analytics_events) schemaStep_analytics_events _ s⟩
    · intro e _ hcontra
      cases hcontra
  | none =>
    simp only [h0]
    cases hr : runSteps (dmlSteps.enum.map fun p => liftStep p.2 (profile (p.1 + 1)))
        (createSchema s) with
    | ok s2 =>
      simp only [hr]
      refine ⟨?_, ?_, ?_⟩
      · intro _
        have hfold := runSteps_lift_ok (fun p => p.2) (fun p => profile (p.1 + 1))
          dmlSteps.enum (createSchema s) s2 hr
        exact hfold.trans (dml_foldl s)
      · intro e he
        cases he
      · intro e he
        cases he
    | error e =>
      simp only [hr]
      refine ⟨?_, ?_, ?_⟩
      · intro h
        cases h
      · intro e' _
        exact ⟨createSchema_app_info s, createSchema_users s, createSchema_games s,
          createSchema_game_scores s, createSchema_analytics_events s⟩
      · intro e' _ _
        trivial

/-- Witness for C2 (amended): a run whose first DML stage fails leaves
exactly the schema-creation result on disk. -/
theorem initializer_seed_dml_atomic_witness :
    (initDbTx (fun i => if i == 1 then some SqlError.locked else none) 0 emptyDB).1 =
      createSchema emptyDB :=
  ((initializer_seed_dml_atomic (fun i => if i == 1 then some SqlError.locked else none) 0
      emptyDB).2.2) SqlError.locked rfl rfl

/-- C3 counterexample: the Schema Initializer does raise to its caller — a
failing schema/seed statement propagates its error out of the script (there
is no enclosing try/except around the database work in `init_db.py`). -/
theorem initializer_raises_on_stage_failure :
    (initDbScript (fun _ => some SqlError.diskError) 0 none false none false false
        emptyDB).raised = some (PyError.sql SqlError.diskError) ∧
    ¬ (initDbScript (fun _ => some SqlError.diskError) 0 none false none false false
        emptyDB).raised = none := by
  refine ⟨rfl, ?_⟩
  intro h
  rw [show (initDbScript (fun _ => some SqlError.diskError) 0 none false none false false
      emptyDB).raised = some (PyError.sql SqlError.diskError) from rfl] at h
  cases h

/-- C3 amended: the script raises nothing exactly when the schema/seed work,
the unguarded post-commit statistics queries, and the directory creation
(when the directory is missing) all succeed; the two guarded artifact writes
never raise (they only log warnings), and the database state handed back is
always the transaction's durable state — a raise after the commit no longer
affects it. -/
theorem initializer_raise_characterization (profile : FailureProfile) (ddlDone : Nat)
    (statsFail : Option SqlError) (dirMissing : Bool) (mkdirFail : Option String)
    (connFileFails envFileFails : Bool) (s : DBState) :
    ((initDbScript profile ddlDone statsFail dirMissing mkdirFail connFileFails envFileFails
        s).raised = none ↔
      ((initDbTx profile ddlDone s).2 = none ∧ statsFail = none ∧
        (dirMissing = true → mkdirFail = none))) ∧
    (initDbScript profile ddlDone statsFail dirMissing mkdirFail connFileFails envFileFails
        s).db = (initDbTx profile ddlDone s).1 := by
  unfold initDbScript
  cases htx : (initDbTx profile ddlDone s).2 with
  | some e => simp [htx]
  | none =>
    cases statsFail with
    | some e => simp [htx]
    | none =>
      cases dirMissing with
      | false => simp [htx]
      | true =>
        cases mkdirFail with
        | some msg => simp [htx]
        | none => simp [htx]

/-- Witness for C3 (amended): with every unguarded step succeeding and both
guarded artifact writes failing, the script raises nothing. -/
theorem initializer_raise_characterization_witness :
    (initDbScript (fun _ => none) 0 none true none true true emptyDB).raised = none :=
  (initializer_raise_characterization (fun _ => none) 0 none true none true true
    emptyDB).1.mpr ⟨rfl, rfl, fun _ => rfl⟩

/-- C6: a seed user candidate is inserted (appended with the next sequence
id) exactly when no existing users row matches its username or its email;
either field matching independently blocks the insert. -/
theorem seed_user_insert_iff_no_match (s : DBState) (c : UserSeed) :
    ((¬ ∃ r ∈ s.users.rows, r.username = c.username ∨ r.email = c.email) →
      insertUserIfAbsent s c =
        { s with users :=
            ⟨s.users.rows ++
              [⟨s.users.seq + 1, c.username, c.email, c.display_name, c.avatar_url, c.locale⟩],
             s.users.seq + 1⟩ }) ∧
    ((∃ r ∈ s.users.rows, r.username = c.username ∨ r.email = c.email) →
      insertUserIfAbsent s c = s) := by
  constructor
  · intro h
    have hb : ¬ (s.users.rows.any (userMatches c) = true) := by
      rw [List.any_eq_true]
      rintro ⟨r, hr, hm⟩
      apply h
      refine ⟨r, hr, ?_⟩
      simpa [userMatches, Bool.or_eq_true, beq_iff_eq] using hm
    unfold insertUserIfAbsent
    rw [if_neg hb]
  · rintro ⟨r, hr, hm⟩
    apply insertUser_id
    unfold userSeen
    rw [List.any_eq_true]
    exact ⟨r, hr, by simpa [userMatches, Bool.or_eq_true, beq_iff_eq] using hm⟩

/-- Witness for C6: on an empty users table the alice seed row is inserted. -/
theorem seed_user_insert_iff_no_match_witness :
    insertUserIfAbsent emptyDB ⟨"alice", "alice@example.com", some "Alice", none, "en"⟩ =
      { emptyDB with users :=
          ⟨emptyDB.users.rows ++
            [⟨emptyDB.users.seq + 1, "alice", "alice@example.com", some "Alice", none, "en"⟩],
           emptyDB.users.seq + 1⟩ } :=
  (seed_user_insert_iff_no_match emptyDB
    ⟨"alice", "alice@example.com", some "Alice", none, "en"⟩).1 (by simp [emptyDB, emptyTable])

/-- C7 counterexample: on a database whose pre-existing users table holds the
row ("alice", id 0), both lookups of the combo ("quiz_master", "alice", 850)
yield a row and no matching score triple exists, yet the candidate is skipped:
`if gid and uid:` treats id 0 as falsy (Python truthiness), contradicting the
claim that under successful lookups the row is inserted whenever the triple is
absent. -/
theorem score_zero_id_skip_counterexample :
    get_id_games zeroIdState "quiz_master" = some 1 ∧
    get_id_users zeroIdState "alice" = some 0 ∧
    tripleExists zeroIdState 1 0 850 = false ∧
    insertScoreIfAbsent zeroIdState ⟨"quiz_master", "alice", 850⟩ = zeroIdState := by
  refine ⟨by decide, by decide, by decide, ?_⟩
  exact (insertScore_char zeroIdState ⟨"quiz_master", "alice", 850⟩).1 (by decide)

/-- C7 amended: a combo candidate is skipped when either lookup yields no row
OR yields id 0 (Python truthiness of `if gid and uid:`); when both lookups
yield nonzero ids, the row is inserted exactly when no existing game_scores
row has the same (game_id, user_id, score) triple. -/
theorem score_insert_characterization (s : DBState) (c : ScoreSeed) :
    ((get_id_games s c.game_code = none ∨ get_id_users s c.username = none ∨
      get_id_games s c.game_code = some 0 ∨ get_id_users s c.username = some 0) →
      insertScoreIfAbsent s c = s) ∧
    (∀ g u, get_id_games s c.game_code = some g → get_id_users s c.username = some u →
      g ≠ 0 → u ≠ 0 →
      ((tripleExists s g u c.score = true → insertScoreIfAbsent s c = s) ∧
       (tripleExists s g u c.score = false →
         insertScoreIfAbsent s c =
           { s with game_scores :=
               ⟨s.game_scores.rows ++ [⟨s.game_scores.seq + 1, g, u, c.score, none⟩],
                s.game_scores.seq + 1⟩ }))) := by
  constructor
  · intro h
    apply (insertScore_char s c).1
    rcases h with h | h | h | h <;> simp [pyTruthy, h]
  · intro g u hg hu hgz huz
    have hguard : (pyTruthy (get_id_games s c.game_code) &&
        pyTruthy (get_id_users s c.username)) = true := by
      rw [hg, hu]
      simp [pyTruthy]
      exact ⟨hgz, huz⟩
    constructor
    · intro htr
      apply (insertScore_char s c).2.1 hguard
      simpa [hg, hu] using htr
    · intro htr
      have h2 := (insertScore_char s c).2.2 hguard (by simpa [hg, hu] using htr)
      rw [h2, hg, hu]
      simp

/-- Witness for C7 (amended) on a freshly seeded database: the triple
("quiz_master", "alice", 850) already exists, so the step is a no-op. -/
theorem score_insert_characterization_witness :
    insertScoreIfAbsent (initDb emptyDB) ⟨"quiz_master", "alice", 850⟩ = initDb emptyDB :=
  ((score_insert_characterization (initDb emptyDB) ⟨"quiz_master", "alice", 850⟩).2 1 1
    (by decide) (by decide) (by decide) (by decide)).1 (by decide)

/-- C10: a run of the Schema Initializer only appends rows to users, games,
game_scores and analytics_events — every pre-existing row of these four
tables survives unchanged, as a prefix of the resulting table. -/
theorem initializer_preserves_existing_rows (s : DBState) :
    ∃ nu ng ns ne,
      (initDb s).users.rows = s.users.rows ++ nu ∧
      (initDb s).games.rows = s.games.rows ++ ng ∧
      (initDb s).game_scores.rows = s.game_scores.rows ++ ns ∧
      (initDb s).analytics_events.rows = s.analytics_events.rows ++ ne := by
  obtain ⟨nu, hnu⟩ := seedUsers_rows_app (seedAppInfo (createSchema s))
  obtain ⟨ng, hng⟩ := seedGames_rows_app (seedUsers (seedAppInfo (createSchema s)))
  obtain ⟨ns, hns⟩ :=
    seedGameScores_rows_app (seedGames (seedUsers (seedAppInfo (createSchema s))))
  obtain ⟨ne, hne⟩ :=
    seedAnalyticsEvents_rows_app
      (seedGameScores (seedGames (seedUsers (seedAppInfo (createSchema s)))))
  refine ⟨nu, ng, ns, ne, ?_, ?_, ?_, ?_⟩
  · rw [initDb_eq, seedAnalyticsEvents_users, seedGameScores_users, seedGames_users, hnu,
      seedAppInfo_users, createSchema_users]
  · rw [initDb_eq, seedAnalyticsEvents_games, seedGameScores_games, hng, seedUsers_games,
      seedAppInfo_games, createSchema_games]
  · rw [initDb_eq, seedAnalyticsEvents_game_scores, hns, seedGames_game_scores,
      seedUsers_game_scores, seedAppInfo_game_scores, createSchema_game_scores]
  · rw [initDb_eq, hne, seedGameScores_analytics_events, seedGames_analytics_events,
      seedUsers_analytics_events, seedAppInfo_analytics_events, createSchema_analytics_events]

end GamingDB

namespace HealthServer

/-- C4 counterexample: the quick_check comparison is case-insensitive, not an
exact-string match — with check result "OK" (which is not the exact string
"ok") the handler still answers detail "ok", where the claim demands
"opened". -/
theorem quick_check_uppercase_counterexample :
    check_sqlite_health "/data/myapp.db" true (.ok (some (SqlValue.str "OK"))) = (true, "ok") ∧
    do_GET "/data/myapp.db" true (.ok (some (SqlValue.str "OK"))) 0 "/health" =
      Response.json 200
        [("service", JsonValue.str "gaming_database"),
         ("status", JsonValue.str "ok"),
         ("database", JsonValue.str "sqlite"),
         ("detail", JsonValue.str "ok"),
         ("db_path", JsonValue.str "/data/myapp.db"),
         ("time", JsonValue.int 0)] ∧
    ("OK" : String) ≠ "ok" :=
  ⟨by decide, by decide, by decide⟩

/-- C4 amended: on the four health paths, when the file exists and the
connection opens, the response is HTTP 200; the detail is "ok" exactly when
the check result is a string equal to "ok" after ASCII lower-casing
(`result[0].lower() == "ok"`), and "opened" for every other result (other
strings, non-strings, or no row). -/
theorem health_detail_ok_or_opened (db_path : String) (res : Option SqlValue) (now : Int)
    (p : String) (hp : p ∈ healthPaths) :
    ((∃ v, res = some (SqlValue.str v) ∧ strLower v = "ok") →
      do_GET db_path true (.ok res) now p =
        Response.json 200
          [("service", JsonValue.str "gaming_database"),
           ("status", JsonValue.str "ok"),
           ("database", JsonValue.str "sqlite"),
           ("detail", JsonValue.str "ok"),
           ("db_path", JsonValue.str db_path),
           ("time", JsonValue.int now)]) ∧
    ((∀ v, res = some (SqlValue.str v) → strLower v ≠ "ok") →
      do_GET db_path true (.ok res) now p =
        Response.json 200
          [("service", JsonValue.str "gaming_database"),
           ("status", JsonValue.str "ok"),
           ("database", JsonValue.str "sqlite"),
           ("detail", JsonValue.str "opened"),
           ("db_path", JsonValue.str db_path),
           ("time", JsonValue.int now)]) := by
  have hcont := List.elem_eq_true_of_mem hp
  constructor
  · rintro ⟨v, rfl, hv⟩
    unfold do_GET
    rw [if_pos hcont]
    simp [check_sqlite_health, hv]
  · intro hno
    unfold do_GET
    rw [if_pos hcont]
    cases res with
    | none => simp [check_sqlite_health]
    | some val =>
      cases val with
      | str v =>
        have hv : (strLower v == "ok") = false := by
          rw [beq_eq_false_iff_ne]
          exact hno v rfl
        simp [check_sqlite_health, hv]
      | int n => simp [check_sqlite_health]
      | null => simp [check_sqlite_health]

/-- Witness for C4 (amended) at check result "ok" on /health. -/
theorem health_detail_ok_or_opened_witness :
    do_GET "/data/myapp.db" true (.ok (some (SqlValue.str "ok"))) 7 "/health" =
      Response.json 200
        [("service", JsonValue.str "gaming_database"),
         ("status", JsonValue.str "ok"),
         ("database", JsonValue.str "sqlite"),
         ("detail", JsonValue.str "ok"),
         ("db_path", JsonValue.str "/data/myapp.db"),
         ("time", JsonValue.int 7)] :=
  (health_detail_ok_or_opened "/data/myapp.db" (some (SqlValue.str "ok")) 7 "/health"
    (by decide)).1 ⟨"ok", rfl, by decide⟩

/-- C5 counterexample: with the file absent the response detail is the full
message "SQLite database file not found at <path>", which is not the string
"file not found" that the claim states. -/
theorem file_not_found_detail_counterexample :
    do_GET "/data/myapp.db" false (.ok none) 0 "/health" =
      Response.json 503
        [("service", JsonValue.str "gaming_database"),
         ("status", JsonValue.str "unavailable"),
         ("database", JsonValue.str "sqlite"),
         ("detail", JsonValue.str "SQLite database file not found at /data/myapp.db"),
         ("db_path", JsonValue.str "/data/myapp.db"),
         ("time", JsonValue.int 0)] ∧
    ("SQLite database file not found at /data/myapp.db" : String) ≠ "file not found" :=
  ⟨by decide, by decide⟩

/-- C5 amended: on the four health paths with the database file absent, the
response is HTTP 503 with status "unavailable" and detail the message
"SQLite database file not found at <db_path>" — a string containing
"not found". -/
theorem absent_file_yields_503 (db_path : String) (conn : Except String (Option SqlValue))
    (now : Int) (p : String) (hp : p ∈ healthPaths) :
    do_GET db_path false conn now p =
      Response.json 503
        [("service", JsonValue.str "gaming_database"),
         ("status", JsonValue.str "unavailable"),
         ("database", JsonValue.str "sqlite"),
         ("detail", JsonValue.str ("SQLite database file not found at " ++ db_path)),
         ("db_path", JsonValue.str db_path),
         ("time", JsonValue.int now)] ∧
    (∃ pre post,
      "SQLite database file not found at " ++ db_path = pre ++ "not found" ++ post) := by
  constructor
  · unfold do_GET
    rw [if_pos (List.elem_eq_true_of_mem hp)]
    simp [check_sqlite_health]
  · refine ⟨"SQLite database file ", " at " ++ db_path, ?_⟩
    rw [← String.append_assoc]
    rfl

/-- Witness for C5 (amended) on /ready. -/
theorem absent_file_yields_503_witness :
    do_GET "/data/myapp.db" false (.ok none) 5 "/ready" =
      Response.json 503
        [("service", JsonValue.str "gaming_database"),
         ("status", JsonValue.str "unavailable"),
         ("database", JsonValue.str "sqlite"),
         ("detail", JsonValue.str ("SQLite database file not found at " ++ "/data/myapp.db")),
         ("db_path", JsonValue.str "/data/myapp.db"),
         ("time", JsonValue.int 5)] ∧
    (∃ pre post,
      "SQLite database file not found at " ++ "/data/myapp.db" =
        pre ++ "not found" ++ post) :=
  absent_file_yields_503 "/data/myapp.db" (.ok none) 5 "/ready" (by decide)

/-- C8: with the initializer script present, startup invokes it exactly when
the database file is missing or has zero size; a failing invocation is logged
(the CalledProcessError is caught) and the listener still binds and serves. -/
theorem startup_invokes_initializer_and_serves (dbFileExists : Bool) (dbFileSize : Nat)
    (run : SubprocessOutcome) :
    ((main_startup dbFileExists dbFileSize true run).invokedInit = true ↔
      (dbFileExists = false ∨ dbFileSize = 0)) ∧
    (main_startup dbFileExists dbFileSize true run).listening = true ∧
    (∀ m, (dbFileExists = false ∨ dbFileSize = 0) → run = .failure m →
      (main_startup dbFileExists dbFileSize true run).loggedError =
        some ("[health_server] DB initialization error: " ++ m)) := by
  cases dbFileExists with
  | false => cases run <;> simp [main_startup, init_db_if_needed]
  | true =>
    by_cases hsz : dbFileSize = 0 <;> cases run <;>
      simp [main_startup, init_db_if_needed, hsz]

/-- Witness for C8: missing database file, failing initializer subprocess. -/
theorem startup_invokes_initializer_and_serves_witness :
    (main_startup false 0 true (SubprocessOutcome.failure "boom")).invokedInit = true ∧
    (main_startup false 0 true (SubprocessOutcome.failure "boom")).listening = true ∧
    (main_startup false 0 true (SubprocessOutcome.failure "boom")).loggedError =
      some "[health_server] DB initialization error: boom" := by
  have h := startup_invokes_initializer_and_serves false 0 (SubprocessOutcome.failure "boom")
  exact ⟨h.1.mpr (Or.inl rfl), h.2.1, h.2.2 "boom" (Or.inl rfl) rfl⟩

/-- C9: the four paths /, /health, /ready, /live are handled identically, all
producing a JSON object with exactly the fields service (constant
"gaming_database"), status ("ok" or "unavailable" according to health),
database (constant "sqlite"), detail, db_path (the configured absolute
database path) and time (unix seconds); every other path yields HTTP 404. -/
theorem get_handler_response_shape (db_path : String) (fileExists : Bool)
    (conn : Except String (Option SqlValue)) (now : Int) (p : String) :
    (p ∈ healthPaths →
      do_GET db_path fileExists conn now p =
        Response.json (if (check_sqlite_health db_path fileExists conn).1 then 200 else 503)
          [("service", JsonValue.str "gaming_database"),
           ("status",
            JsonValue.str
              (if (check_sqlite_health db_path fileExists conn).1 then "ok" else "unavailable")),
           ("database", JsonValue.str "sqlite"),
           ("detail", JsonValue.str (check_sqlite_health db_path fileExists conn).2),
           ("db_path", JsonValue.str db_path),
           ("time", JsonValue.int now)]) ∧
    (p ∉ healthPaths → do_GET db_path fileExists conn now p = Response.err 404 "Not Found") := by
  constructor
  · intro hp
    unfold do_GET
    rw [if_pos (List.elem_eq_true_of_mem hp)]
  · intro hp
    unfold do_GET
    rw [if_neg (by simpa using hp)]

/-- Witness for C9 at /live (JSON shape) and /nope (404). -/
theorem get_handler_response_shape_witness :
    do_GET "/data/myapp.db" true (.ok (some (SqlValue.str "ok"))) 7 "/live" =
      Response.json
        (if (check_sqlite_health "/data/myapp.db" true
              (.ok (some (SqlValue.str "ok")))).1 then 200 else 503)
        [("service", JsonValue.str "gaming_database"),
         ("status",
          JsonValue.str
            (if (check_sqlite_health "/data/myapp.db" true
                  (.ok (some (SqlValue.str "ok")))).1 then "ok" else "unavailable")),
         ("database", JsonValue.str "sqlite"),
         ("detail",
          JsonValue.str (check_sqlite_health "/data/myapp.db" true
            (.ok (some (SqlValue.str "ok")))).2),
         ("db_path", JsonValue.str "/data/myapp.db"),
         ("time", JsonValue.int 7)] ∧
    do_GET "/data/myapp.db" true (.ok (some (SqlValue.str "ok"))) 7 "/nope" =
      Response.err 404 "Not Found" :=
  ⟨(get_handler_response_shape "/data/myapp.db" true (.ok (some (SqlValue.str "ok"))) 7
      "/live").1 (by decide),
   (get_handler_response_shape "/data/myapp.db" true (.ok (some (SqlValue.str "ok"))) 7
      "/nope").2 (by decide)⟩

end HealthServer
